import Mathlib

/-!
Verification development for the VibeStream Pro backend (src/backend/main.py).

The Python source is shallowly embedded: pure string/number helpers become
Lean functions on `String`/`Nat`/`ℚ`, and the request handlers become total
functions over an explicit environment record whose boolean fields record
the outcome of each external effect (yt-dlp calls, HTTP fetches, ffmpeg
subprocess exits, tag-library calls).  Strings are modelled over `List Char`;
`str.lower` is modelled by ASCII case mapping and `str.strip` by removing
ASCII whitespace from both ends, which is faithful for every string the
properties below inspect.  The float trim bounds are modelled as exact
rationals extended with the NaN value, whose comparisons are always false
and which `int()` rejects.
-/

namespace VibeStream

/-- ASCII whitespace, the characters `str.strip()` removes that matter here. -/
def isPySpace (c : Char) : Bool :=
  c = ' ' || c = '\t' || c = '\n' || c = '\r' || c = Char.ofNat 11 || c = Char.ofNat 12

/-- Model of Python `str.strip()` on the character list. -/
def stripL (l : List Char) : List Char :=
  ((l.dropWhile isPySpace).reverse.dropWhile isPySpace).reverse

/-- Model of Python `str.strip()`. -/
def pythonStrip (s : String) : String :=
  String.mk (stripL s.data)

/-- Model of Python `str.lower()` (ASCII case mapping). -/
def pythonLower (s : String) : String :=
  String.mk (s.data.map Char.toLower)

/-- Python substring test `needle in hay` on character lists. -/
def containsSubL (needle : List Char) : List Char → Bool
  | [] => needle.isEmpty
  | c :: rest => (c :: rest).take needle.length == needle || containsSubL needle rest

/-- Python substring test `needle in hay`. -/
def pyContains (needle hay : String) : Bool :=
  containsSubL needle.data hay.data

/-- Auxiliary scanner for whitespace splitting. -/
def splitWsAux : List Char → List Char → List (List Char)
  | [], acc => if acc.isEmpty then [] else [acc.reverse]
  | c :: rest, acc =>
    if isPySpace c then
      if acc.isEmpty then splitWsAux rest [] else acc.reverse :: splitWsAux rest []
    else splitWsAux rest (c :: acc)

/-- Model of Python `str.split()` with no separator: split on whitespace runs,
dropping empty pieces. -/
def pySplitWs (s : String) : List String :=
  (splitWsAux s.data []).map String.mk

/-- Model of Python `" ".join(...)`. -/
def joinSpace (l : List String) : String :=
  String.intercalate " " l

/-- Auxiliary for `str.title`: the boolean records whether the previous
character was a letter. -/
def pyTitleAux : List Char → Bool → List Char
  | [], _ => []
  | c :: rest, prevCased =>
    if c.isAlpha then
      (if prevCased then c.toLower else c.toUpper) :: pyTitleAux rest true
    else c :: pyTitleAux rest false

/-- Model of Python `str.title()` (ASCII letters). -/
def pythonTitle (s : String) : String :=
  String.mk (pyTitleAux s.data false)

/-- Index of the first occurrence of `needle` in the list, if any. -/
def findSubIdx (needle : List Char) : List Char → Option Nat
  | [] => if needle.isEmpty then some 0 else none
  | c :: rest =>
    if (c :: rest).take needle.length == needle then some 0
    else match findSubIdx needle rest with
      | some i => some (i + 1)
      | none => none

/-- Model of Python `s.split(sep, 1)` when `sep in s`: the parts before and
after the first occurrence of `sep`; `none` models `sep not in s`. -/
def pySplitOnce (sep s : String) : Option (String × String) :=
  match findSubIdx sep.data s.data with
  | some i => some (String.mk (s.data.take i), String.mk (s.data.drop (i + sep.length)))
  | none => none

/-! ## `format_duration` (main.py lines 177-184) -/

/-- Python `f"{n:02}"` for the minute/second fields (values below 100). -/
def pad2 (n : Nat) : String :=
  if n < 10 then "0" ++ Nat.repr n else Nat.repr n

/-- Embedding of `format_duration`: `divmod` twice, then the hour form when
the hour count is truthy (nonzero), else the minute form. -/
def format_duration (seconds : Option Nat) : String :=
  match seconds with
  | none => "Unknown"
  | some n =>
    let mins := n / 60
    let secs := n % 60
    let hrs := mins / 60
    let mins := mins % 60
    if hrs ≠ 0 then Nat.repr hrs ++ ":" ++ pad2 mins ++ ":" ++ pad2 secs
    else Nat.repr (n / 60) ++ ":" ++ pad2 secs

/-! ## `sanitize_filename` (main.py lines 187-188) -/

/-- The characters removed by the `re.sub` character class in
`sanitize_filename`. -/
def isForbiddenChar (c : Char) : Bool :=
  c = '\\' || c = '/' || c = '*' || c = '?' || c = ':' || c = '\"' ||
  c = '<' || c = '>' || c = '|'

/-- Embedding of `sanitize_filename`: remove the forbidden characters, strip,
then keep the first 100 characters. -/
def sanitize_filename (name : String) : String :=
  String.mk ((stripL (name.data.filter (fun c => !isForbiddenChar c))).take 100)

/-! ## `is_url` / `prepare_url` (main.py lines 240-243 and 287-297) -/

/-- Embedding of `is_url`: strip, lowercase, then test the two scheme
markers. -/
def is_url (text : String) : Bool :=
  let t := (pythonLower (pythonStrip text)).data
  ("http://".data.isPrefixOf t) || ("https://".data.isPrefixOf t)

/-- Embedding of `prepare_url`: strip, pass URLs through unchanged, prefix
search queries with the extractor search syntax. -/
def prepare_url (input_text : String) : String :=
  let text := pythonStrip input_text
  if is_url text then text else "ytsearch1:" ++ text

/-! ## `extract_video_id` (main.py lines 269-284) -/

/-- The regex character class `[a-zA-Z0-9_-]`. -/
def isIdChar (c : Char) : Bool :=
  c.isAlpha || c.isDigit || c = '_' || c = '-'

/-- Matches the anchored pattern `[a-zA-Z0-9_-]` of length exactly 11. -/
def fullId (l : List Char) : Bool :=
  l.length == 11 && l.all isIdChar

/-- One regex alternative tried at the current position: a literal marker
followed by a capturing group of exactly 11 id characters. -/
def tryAltsAt (alts : List (List Char)) (l : List Char) : Option (List Char) :=
  alts.findSome? (fun pre =>
    if pre.isPrefixOf l && fullId ((l.drop pre.length).take 11) then
      some ((l.drop pre.length).take 11)
    else none)

/-- `re.search` for the patterns of `extract_video_id`: leftmost position
first, alternatives in order at each position. -/
def searchAlts (alts : List (List Char)) : List Char → Option (List Char)
  | [] => none
  | c :: rest =>
    match tryAltsAt alts (c :: rest) with
    | some idc => some idc
    | none => searchAlts alts rest

/-- Alternatives of the first pattern in `extract_video_id`. -/
def watchAlts : List (List Char) :=
  ["youtube.com/watch?v=".data, "youtu.be/".data, "youtube.com/embed/".data]

/-- Alternatives of the second pattern in `extract_video_id`. -/
def shortsAlts : List (List Char) :=
  ["youtube.com/shorts/".data]

/-- Embedding of `extract_video_id`: strip, accept a bare 11-character id,
else search the two URL patterns in order. -/
def extract_video_id (url_or_id : String) : Option String :=
  let text := stripL url_or_id.data
  if fullId text then some (String.mk text)
  else match searchAlts watchAlts text with
    | some idc => some (String.mk idc)
    | none =>
      match searchAlts shortsAlts text with
      | some idc => some (String.mk idc)
      | none => none

/-! ## Lyrics search (main.py lines 882-1281) -/

/-- Inner-loop cell computation of `levenshtein_distance`: one row of the
dynamic program.  `prev` is the previous row, `last` the last cell appended
to the current row. -/
def levRowAux (c1 : Char) : List Char → List Nat → Nat → List Nat
  | [], _, _ => []
  | c2 :: rest, p0 :: p1 :: ps, last =>
    let cell := min (p1 + 1) (min (last + 1) (p0 + (if c1 = c2 then 0 else 1)))
    cell :: levRowAux c1 rest (p1 :: ps) cell
  | _ :: _, _, _ => []

/-- Outer loop of `levenshtein_distance`: fold the rows over `s1`'s
characters; `i` is the current row index. -/
def levLoop (s2 : List Char) : List Nat → Nat → List Char → List Nat
  | prev, _, [] => prev
  | prev, i, c1 :: rest =>
    levLoop s2 ((i + 1) :: levRowAux c1 s2 prev (i + 1)) (i + 1) rest

/-- The dynamic program of `levenshtein_distance` once `s1` is at least as
long as `s2` (the early return for empty `s2` included). -/
def levCore (l1 l2 : List Char) : Nat :=
  if l2.length == 0 then l1.length
  else (levLoop l2 (List.range (l2.length + 1)) 0 l1).getLastD 0

/-- Embedding of `levenshtein_distance`, including the argument swap that
puts the longer string first. -/
def levenshtein_distance (s1 s2 : String) : Nat :=
  if s1.length < s2.length then levCore s2.data s1.data else levCore s1.data s2.data

/-- Python `s.replace(" ", "")`. -/
def removeSpaces (s : String) : String :=
  String.mk (s.data.filter (fun c => c != ' '))

/-- Embedding of `fuzzy_match`: exact/substring match, space-free equality,
word-set overlap of at least 60 percent (the float test `overlap / min_len
>= 0.6` holds exactly when `5 * overlap >= 3 * min_len` for these small
exact ratios), then a Levenshtein threshold. -/
def fuzzy_match (query target : String) : Bool :=
  let q := pythonStrip (pythonLower query)
  let t := pythonStrip (pythonLower target)
  if q == t || pyContains q t || pyContains t q then true
  else
    let qns := removeSpaces q
    let tns := removeSpaces t
    if qns == tns then true
    else
      let qw := (pySplitWs q).dedup
      let tw := (pySplitWs t).dedup
      let wordHit :=
        if !qw.isEmpty && !tw.isEmpty then
          let overlap := (qw.filter (fun w => tw.contains w)).length
          let minLen := min qw.length tw.length
          !(minLen == 0) && Nat.ble (3 * minLen) (5 * overlap)
        else false
      if wordHit then true
      else
        let shorter := if qns.length ≤ tns.length then qns else tns
        let maxDist := max 2 (shorter.length / 5)
        Nat.ble (levenshtein_distance qns tns) maxDist

/-- One entry of the `POPULAR_SONGS` dictionary: lookup key, artist, title
(dictionary insertion order preserved as list order). -/
structure SongEntry where
  key : String
  artist : String
  title : String

/-- Rows 1-25 of the `POPULAR_SONGS` dictionary (main.py lines 882-1107). -/
def popularSongs1 : List SongEntry := [
  ⟨"shape of you", "Ed Sheeran", "Shape of You"⟩,
  ⟨"perfect", "Ed Sheeran", "Perfect"⟩,
  ⟨"thinking out loud", "Ed Sheeran", "Thinking Out Loud"⟩,
  ⟨"photograph", "Ed Sheeran", "Photograph"⟩,
  ⟨"castle on the hill", "Ed Sheeran", "Castle on the Hill"⟩,
  ⟨"galway girl", "Ed Sheeran", "Galway Girl"⟩,
  ⟨"bad habits", "Ed Sheeran", "Bad Habits"⟩,
  ⟨"shivers", "Ed Sheeran", "Shivers"⟩,
  ⟨"anti hero", "Taylor Swift", "Anti-Hero"⟩,
  ⟨"shake it off", "Taylor Swift", "Shake It Off"⟩,
  ⟨"blank space", "Taylor Swift", "Blank Space"⟩,
  ⟨"love story", "Taylor Swift", "Love Story"⟩,
  ⟨"all too well", "Taylor Swift", "All Too Well"⟩,
  ⟨"cruel summer", "Taylor Swift", "Cruel Summer"⟩,
  ⟨"cardigan", "Taylor Swift", "Cardigan"⟩,
  ⟨"willow", "Taylor Swift", "Willow"⟩,
  ⟨"you belong with me", "Taylor Swift", "You Belong with Me"⟩,
  ⟨"style", "Taylor Swift", "Style"⟩,
  ⟨"bad blood", "Taylor Swift", "Bad Blood"⟩,
  ⟨"delicate", "Taylor Swift", "Delicate"⟩,
  ⟨"blinding lights", "The Weeknd", "Blinding Lights"⟩,
  ⟨"starboy", "The Weeknd", "Starboy"⟩,
  ⟨"save your tears", "The Weeknd", "Save Your Tears"⟩,
  ⟨"die for you", "The Weeknd", "Die for You"⟩,
  ⟨"the hills", "The Weeknd", "The Hills"⟩]

/-- Rows 26-50 of the `POPULAR_SONGS` dictionary (main.py lines 882-1107). -/
def popularSongs2 : List SongEntry := [
  ⟨"cant feel my face", "The Weeknd", "Can\x27t Feel My Face"⟩,
  ⟨"love yourself", "Justin Bieber", "Love Yourself"⟩,
  ⟨"sorry", "Justin Bieber", "Sorry"⟩,
  ⟨"peaches", "Justin Bieber", "Peaches"⟩,
  ⟨"ghost", "Justin Bieber", "Ghost"⟩,
  ⟨"baby", "Justin Bieber", "Baby"⟩,
  ⟨"what do you mean", "Justin Bieber", "What Do You Mean?"⟩,
  ⟨"bad guy", "Billie Eilish", "Bad Guy"⟩,
  ⟨"lovely", "Billie Eilish", "Lovely"⟩,
  ⟨"when the partys over", "Billie Eilish", "When the Party\x27s Over"⟩,
  ⟨"ocean eyes", "Billie Eilish", "Ocean Eyes"⟩,
  ⟨"happier than ever", "Billie Eilish", "Happier Than Ever"⟩,
  ⟨"levitating", "Dua Lipa", "Levitating"⟩,
  ⟨"dont start now", "Dua Lipa", "Don\x27t Start Now"⟩,
  ⟨"new rules", "Dua Lipa", "New Rules"⟩,
  ⟨"one kiss", "Dua Lipa", "One Kiss"⟩,
  ⟨"physical", "Dua Lipa", "Physical"⟩,
  ⟨"watermelon sugar", "Harry Styles", "Watermelon Sugar"⟩,
  ⟨"as it was", "Harry Styles", "As It Was"⟩,
  ⟨"sign of the times", "Harry Styles", "Sign of the Times"⟩,
  ⟨"adore you", "Harry Styles", "Adore You"⟩,
  ⟨"drivers license", "Olivia Rodrigo", "Drivers License"⟩,
  ⟨"good 4 u", "Olivia Rodrigo", "Good 4 U"⟩,
  ⟨"deja vu", "Olivia Rodrigo", "Deja Vu"⟩,
  ⟨"traitor", "Olivia Rodrigo", "Traitor"⟩]

/-- Rows 51-75 of the `POPULAR_SONGS` dictionary (main.py lines 882-1107). -/
def popularSongs3 : List SongEntry := [
  ⟨"vampire", "Olivia Rodrigo", "Vampire"⟩,
  ⟨"thank u next", "Ariana Grande", "Thank U, Next"⟩,
  ⟨"7 rings", "Ariana Grande", "7 Rings"⟩,
  ⟨"positions", "Ariana Grande", "Positions"⟩,
  ⟨"into you", "Ariana Grande", "Into You"⟩,
  ⟨"no tears left to cry", "Ariana Grande", "No Tears Left to Cry"⟩,
  ⟨"break up with your girlfriend", "Ariana Grande", "Break Up with Your Girlfriend"⟩,
  ⟨"rockstar", "Post Malone", "Rockstar"⟩,
  ⟨"sunflower", "Post Malone", "Sunflower"⟩,
  ⟨"circles", "Post Malone", "Circles"⟩,
  ⟨"congratulations", "Post Malone", "Congratulations"⟩,
  ⟨"better now", "Post Malone", "Better Now"⟩,
  ⟨"uptown funk", "Bruno Mars", "Uptown Funk"⟩,
  ⟨"just the way you are", "Bruno Mars", "Just the Way You Are"⟩,
  ⟨"grenade", "Bruno Mars", "Grenade"⟩,
  ⟨"24k magic", "Bruno Mars", "24K Magic"⟩,
  ⟨"thats what i like", "Bruno Mars", "That\x27s What I Like"⟩,
  ⟨"treasure", "Bruno Mars", "Treasure"⟩,
  ⟨"locked out of heaven", "Bruno Mars", "Locked Out of Heaven"⟩,
  ⟨"hello", "Adele", "Hello"⟩,
  ⟨"rolling in the deep", "Adele", "Rolling in the Deep"⟩,
  ⟨"someone like you", "Adele", "Someone Like You"⟩,
  ⟨"easy on me", "Adele", "Easy on Me"⟩,
  ⟨"set fire to the rain", "Adele", "Set Fire to the Rain"⟩,
  ⟨"gods plan", "Drake", "God\x27s Plan"⟩]

/-- Rows 76-100 of the `POPULAR_SONGS` dictionary (main.py lines 882-1107). -/
def popularSongs4 : List SongEntry := [
  ⟨"hotline bling", "Drake", "Hotline Bling"⟩,
  ⟨"one dance", "Drake", "One Dance"⟩,
  ⟨"in my feelings", "Drake", "In My Feelings"⟩,
  ⟨"nice for what", "Drake", "Nice for What"⟩,
  ⟨"umbrella", "Rihanna", "Umbrella"⟩,
  ⟨"diamonds", "Rihanna", "Diamonds"⟩,
  ⟨"we found love", "Rihanna", "We Found Love"⟩,
  ⟨"work", "Rihanna", "Work"⟩,
  ⟨"needed me", "Rihanna", "Needed Me"⟩,
  ⟨"crazy in love", "Beyonc\u00e9", "Crazy in Love"⟩,
  ⟨"halo", "Beyonc\u00e9", "Halo"⟩,
  ⟨"single ladies", "Beyonc\u00e9", "Single Ladies"⟩,
  ⟨"formation", "Beyonc\u00e9", "Formation"⟩,
  ⟨"yellow", "Coldplay", "Yellow"⟩,
  ⟨"the scientist", "Coldplay", "The Scientist"⟩,
  ⟨"fix you", "Coldplay", "Fix You"⟩,
  ⟨"viva la vida", "Coldplay", "Viva la Vida"⟩,
  ⟨"paradise", "Coldplay", "Paradise"⟩,
  ⟨"something just like this", "Coldplay", "Something Just Like This"⟩,
  ⟨"my universe", "Coldplay", "My Universe"⟩,
  ⟨"believer", "Imagine Dragons", "Believer"⟩,
  ⟨"radioactive", "Imagine Dragons", "Radioactive"⟩,
  ⟨"demons", "Imagine Dragons", "Demons"⟩,
  ⟨"thunder", "Imagine Dragons", "Thunder"⟩,
  ⟨"natural", "Imagine Dragons", "Natural"⟩]

/-- Rows 101-125 of the `POPULAR_SONGS` dictionary (main.py lines 882-1107). -/
def popularSongs5 : List SongEntry := [
  ⟨"sugar", "Maroon 5", "Sugar"⟩,
  ⟨"memories", "Maroon 5", "Memories"⟩,
  ⟨"girls like you", "Maroon 5", "Girls Like You"⟩,
  ⟨"payphone", "Maroon 5", "Payphone"⟩,
  ⟨"moves like jagger", "Maroon 5", "Moves Like Jagger"⟩,
  ⟨"dance monkey", "Tones and I", "Dance Monkey"⟩,
  ⟨"someone you loved", "Lewis Capaldi", "Someone You Loved"⟩,
  ⟨"senorita", "Shawn Mendes", "Se\u00f1orita"⟩,
  ⟨"havana", "Camila Cabello", "Havana"⟩,
  ⟨"stay", "The Kid LAROI", "Stay"⟩,
  ⟨"heat waves", "Glass Animals", "Heat Waves"⟩,
  ⟨"despacito", "Luis Fonsi", "Despacito"⟩,
  ⟨"old town road", "Lil Nas X", "Old Town Road"⟩,
  ⟨"happier", "Marshmello", "Happier"⟩,
  ⟨"closer", "The Chainsmokers", "Closer"⟩,
  ⟨"dont let me down", "The Chainsmokers", "Don\x27t Let Me Down"⟩,
  ⟨"roses", "The Chainsmokers", "Roses"⟩,
  ⟨"see you again", "Wiz Khalifa", "See You Again"⟩,
  ⟨"stressed out", "Twenty One Pilots", "Stressed Out"⟩,
  ⟨"heathens", "Twenty One Pilots", "Heathens"⟩,
  ⟨"ride", "Twenty One Pilots", "Ride"⟩,
  ⟨"attention", "Charlie Puth", "Attention"⟩,
  ⟨"we dont talk anymore", "Charlie Puth", "We Don\x27t Talk Anymore"⟩,
  ⟨"stitches", "Shawn Mendes", "Stitches"⟩,
  ⟨"treat you better", "Shawn Mendes", "Treat You Better"⟩]

/-- Rows 126-150 of the `POPULAR_SONGS` dictionary (main.py lines 882-1107). -/
def popularSongs6 : List SongEntry := [
  ⟨"theres nothing holdin me back", "Shawn Mendes", "There\x27s Nothing Holdin\x27 Me Back"⟩,
  ⟨"shallow", "Lady Gaga", "Shallow"⟩,
  ⟨"poker face", "Lady Gaga", "Poker Face"⟩,
  ⟨"born this way", "Lady Gaga", "Born This Way"⟩,
  ⟨"bad romance", "Lady Gaga", "Bad Romance"⟩,
  ⟨"all of me", "John Legend", "All of Me"⟩,
  ⟨"counting stars", "OneRepublic", "Counting Stars"⟩,
  ⟨"call me maybe", "Carly Rae Jepsen", "Call Me Maybe"⟩,
  ⟨"roar", "Katy Perry", "Roar"⟩,
  ⟨"firework", "Katy Perry", "Firework"⟩,
  ⟨"dark horse", "Katy Perry", "Dark Horse"⟩,
  ⟨"teenage dream", "Katy Perry", "Teenage Dream"⟩,
  ⟨"wrecking ball", "Miley Cyrus", "Wrecking Ball"⟩,
  ⟨"flowers", "Miley Cyrus", "Flowers"⟩,
  ⟨"party in the usa", "Miley Cyrus", "Party in the U.S.A."⟩,
  ⟨"chandelier", "Sia", "Chandelier"⟩,
  ⟨"cheap thrills", "Sia", "Cheap Thrills"⟩,
  ⟨"titanium", "Sia", "Titanium"⟩,
  ⟨"happy", "Pharrell Williams", "Happy"⟩,
  ⟨"get lucky", "Daft Punk", "Get Lucky"⟩,
  ⟨"starships", "Nicki Minaj", "Starships"⟩,
  ⟨"super bass", "Nicki Minaj", "Super Bass"⟩,
  ⟨"tik tok", "Kesha", "TiK ToK"⟩,
  ⟨"bohemian rhapsody", "Queen", "Bohemian Rhapsody"⟩,
  ⟨"we will rock you", "Queen", "We Will Rock You"⟩]

/-- Rows 151-175 of the `POPULAR_SONGS` dictionary (main.py lines 882-1107). -/
def popularSongs7 : List SongEntry := [
  ⟨"we are the champions", "Queen", "We Are the Champions"⟩,
  ⟨"dont stop me now", "Queen", "Don\x27t Stop Me Now"⟩,
  ⟨"hotel california", "Eagles", "Hotel California"⟩,
  ⟨"stairway to heaven", "Led Zeppelin", "Stairway to Heaven"⟩,
  ⟨"sweet child o mine", "Guns N\x27 Roses", "Sweet Child O\x27 Mine"⟩,
  ⟨"november rain", "Guns N\x27 Roses", "November Rain"⟩,
  ⟨"smells like teen spirit", "Nirvana", "Smells Like Teen Spirit"⟩,
  ⟨"come as you are", "Nirvana", "Come as You Are"⟩,
  ⟨"wonderwall", "Oasis", "Wonderwall"⟩,
  ⟨"dont look back in anger", "Oasis", "Don\x27t Look Back in Anger"⟩,
  ⟨"back in black", "AC/DC", "Back in Black"⟩,
  ⟨"highway to hell", "AC/DC", "Highway to Hell"⟩,
  ⟨"enter sandman", "Metallica", "Enter Sandman"⟩,
  ⟨"nothing else matters", "Metallica", "Nothing Else Matters"⟩,
  ⟨"livin on a prayer", "Bon Jovi", "Livin\x27 on a Prayer"⟩,
  ⟨"its my life", "Bon Jovi", "It\x27s My Life"⟩,
  ⟨"dream on", "Aerosmith", "Dream On"⟩,
  ⟨"i dont want to miss a thing", "Aerosmith", "I Don\x27t Want to Miss a Thing"⟩,
  ⟨"billie jean", "Michael Jackson", "Billie Jean"⟩,
  ⟨"beat it", "Michael Jackson", "Beat It"⟩,
  ⟨"thriller", "Michael Jackson", "Thriller"⟩,
  ⟨"smooth criminal", "Michael Jackson", "Smooth Criminal"⟩,
  ⟨"bad", "Michael Jackson", "Bad"⟩,
  ⟨"black or white", "Michael Jackson", "Black or White"⟩,
  ⟨"lose yourself", "Eminem", "Lose Yourself"⟩]

/-- Rows 176-181 of the `POPULAR_SONGS` dictionary (main.py lines 882-1107). -/
def popularSongs8 : List SongEntry := [
  ⟨"stan", "Eminem", "Stan"⟩,
  ⟨"without me", "Eminem", "Without Me"⟩,
  ⟨"not afraid", "Eminem", "Not Afraid"⟩,
  ⟨"love the way you lie", "Eminem", "Love the Way You Lie"⟩,
  ⟨"rap god", "Eminem", "Rap God"⟩,
  ⟨"the real slim shady", "Eminem", "The Real Slim Shady"⟩]

/-- The `POPULAR_SONGS` dictionary (main.py lines 882-1107), in insertion
order. -/
def POPULAR_SONGS : List SongEntry :=
  popularSongs1 ++ popularSongs2 ++ popularSongs3 ++ popularSongs4 ++ popularSongs5 ++ popularSongs6 ++ popularSongs7 ++ popularSongs8

/-- One element of the result list built by `parse_song_query`.  The
`thumbnail` field of the Python dict is always `None` and the `album` field
of an API result is never read, so neither is modelled. -/
structure SongResult where
  id : Nat
  title : String
  artist : String
  confidence : String
deriving DecidableEq, Repr

/-- The `POPULAR_SONGS` loop of `parse_song_query`: fuzzy match against the
normalized key (high confidence), else against the lowercased artist
(medium confidence); ids are one past the current length. -/
def dbStage (qn : String) : List SongResult :=
  POPULAR_SONGS.foldl (fun acc song =>
    if fuzzy_match qn (joinSpace (pySplitWs song.key)) then
      acc ++ [⟨acc.length + 1, song.title, song.artist, "high"⟩]
    else if fuzzy_match qn (pythonLower song.artist) then
      acc ++ [⟨acc.length + 1, song.title, song.artist, "medium"⟩]
    else acc) []

/-- The `"artist - song"` parse of `parse_song_query` (on the raw query). -/
def dashStage (query : String) (acc : List SongResult) : List SongResult :=
  match pySplitOnce " - " query with
  | some (a, b) => acc ++ [⟨acc.length + 1, pythonStrip b, pythonStrip a, "medium"⟩]
  | none => acc

/-- The `"song by artist"` parse of `parse_song_query` (on the lowercased
stripped query). -/
def byStage (queryLower : String) (acc : List SongResult) : List SongResult :=
  match pySplitOnce " by " queryLower with
  | some (a, b) =>
    acc ++ [⟨acc.length + 1, pythonTitle (pythonStrip a), pythonTitle (pythonStrip b), "medium"⟩]
  | none => acc

/-- The local (API-free) portion of `parse_song_query`: database loop, then
the two query-format parses. -/
def localResults (query : String) : List SongResult :=
  let queryLower := pythonStrip (pythonLower query)
  let qn := joinSpace (pySplitWs queryLower)
  byStage queryLower (dashStage query (dbStage qn))

/-- The live-API merge step of `parse_song_query`: only when fewer than 5
local results; each API entry is appended unless an entry with the same
lowercased title and artist is already present. -/
def apiStage (acc : List SongResult) (api : List SongResult) : List SongResult :=
  if acc.length < 5 then
    api.foldl (fun cur apiSong =>
      let dup := cur.any (fun r =>
        pythonLower r.title == pythonLower apiSong.title &&
        pythonLower r.artist == pythonLower apiSong.artist)
      if dup then cur else cur ++ [{ apiSong with id := cur.length + 1 }]) acc
  else acc

/-- The fallback entry `parse_song_query` appends when no result was found:
the query itself in title case, with an unknown artist. -/
def fallbackStage (query : String) (acc : List SongResult) : List SongResult :=
  if acc.isEmpty then [⟨1, pythonTitle query, "Unknown Artist", "low"⟩] else acc

/-- The deduplication key of `parse_song_query`: lowercased title and
artist. -/
def resultKey (r : SongResult) : String × String :=
  (pythonLower r.title, pythonLower r.artist)

/-- The final deduplication loop of `parse_song_query`: keep the first
occurrence of each key; `seen` models the Python `seen` set. -/
def dedupeBy : List (String × String) → List SongResult → List SongResult
  | _, [] => []
  | seen, r :: rest =>
    if resultKey r ∈ seen then dedupeBy seen rest
    else r :: dedupeBy (resultKey r :: seen) rest

/-- Embedding of `parse_song_query`.  The `apiResults` argument is the list
contributed by the awaited `search_songs_live` call (empty when that call
fails or returns nothing). -/
def parse_song_query (query : String) (apiResults : List SongResult) : List SongResult :=
  (dedupeBy [] (fallbackStage query (apiStage (localResults query) apiResults))).take 10


/-! ## Download fallback cascade (main.py lines 1769-2041)

The request handlers perform external effects (yt-dlp calls, HTTP fetches,
ffmpeg subprocesses, tag writing).  Each effect outcome is an input field of
an environment record, and the handler body is translated statement by
statement over those fields. -/

/-- The download strategies appearing in `download_audio` (the official Data
API appears in the metadata fallback only; it is listed so the cascade
claimed by the spec can be stated). -/
inductive DlSource
  | ytdlp
  | ytdlpProxy
  | cobalt
  | invidious
  | piped
  | officialApi
deriving DecidableEq, Repr

/-- Effect outcomes feeding the download section of `download_audio`
(lines 1899-1983).  `useFallback` is the flag set when the initial
`extract_info` raised (line 1825); `hasVideoId` says `video_id` is not
`None` at the fallback checks; `fetchOk` is the success of the direct-URL
download plus ffmpeg conversion of lines 1954-1979; `apiKeyOk` records a
configured and responding Data API (never an audio source in the code). -/
structure CascadeEnv where
  useFallback : Bool
  hasVideoId : Bool
  ytdlpOk : Bool
  proxyOk : Bool
  cobaltOk : Bool
  invOk : Bool
  pipedOk : Bool
  fetchOk : Bool
  apiKeyOk : Bool
deriving DecidableEq

/-- Statement-by-statement translation of the download section of
`download_audio`: which strategy set `download_success`, `none` when every
attempt failed (the handler then raises a 500).  The first `match` models
the `download_success` flag after the primary attempt (lines 1901-1924),
the second after `download_with_ytdlp_proxy` (lines 1926-1929), and the
inner `if`-chain models the `fallback_audio_url` selection of lines
1935-1951 followed by the single fetch-and-convert attempt. -/
def audioDownloadSource (e : CascadeEnv) : Option DlSource :=
  let s1 : Option DlSource :=
    if !e.useFallback && e.ytdlpOk then some .ytdlp else none
  let s2 : Option DlSource :=
    match s1 with
    | some s => some s
    | none => if e.hasVideoId && e.proxyOk then some .ytdlpProxy else none
  match s2 with
  | some s => some s
  | none =>
    if e.hasVideoId then
      let url : Option DlSource :=
        if e.cobaltOk then some .cobalt
        else if e.invOk then some .invidious
        else if e.pipedOk then some .piped
        else none
      match url with
      | some s => if e.fetchOk then some s else none
      | none => none
    else none

/-- Which of the first two strategies succeeds outright when reached. -/
def primaryStageOk (e : CascadeEnv) : DlSource → Bool
  | .ytdlp => !e.useFallback && e.ytdlpOk
  | .ytdlpProxy => e.hasVideoId && e.proxyOk
  | _ => false

/-- Which direct-URL provider yields an audio URL when reached. -/
def urlProviderOk (e : CascadeEnv) : DlSource → Bool
  | .cobalt => e.hasVideoId && e.cobaltOk
  | .invidious => e.hasVideoId && e.invOk
  | .piped => e.hasVideoId && e.pipedOk
  | _ => false

/-- Declarative first-match form of the cascade the code implements: primary
download, then the alternative-configuration retry, then the first of
Cobalt, Invidious, Piped that yields a URL, on which a single
fetch-and-convert attempt is made. -/
def cascadeFirstMatch (e : CascadeEnv) : Option DlSource :=
  match [DlSource.ytdlp, DlSource.ytdlpProxy].find? (primaryStageOk e) with
  | some s => some s
  | none =>
    match [DlSource.cobalt, DlSource.invidious, DlSource.piped].find? (urlProviderOk e) with
    | some s => if e.fetchOk then some s else none
    | none => none

/-- Modelled from the spec (claim C1 wording), not from the source: after the
primary library fails, fall back to the official platform data API (if a key
is configured), then to the relay services, then to the download-proxy
service, stopping at the first success. -/
def claimedCascadeOrder (e : CascadeEnv) : Option DlSource :=
  if !e.useFallback && e.ytdlpOk then some .ytdlp
  else if e.apiKeyOk then some .officialApi
  else if e.hasVideoId && e.invOk then some .invidious
  else if e.hasVideoId && e.pipedOk then some .piped
  else if e.hasVideoId && e.cobaltOk && e.fetchOk then some .cobalt
  else none

/-! ## Audio post-processing (main.py lines 682-816 and 1994-2010) -/

/-- The `AudioMode` literal type. -/
inductive AudioMode
  | standard
  | bass_boost
  | nightcore
  | minus_one
deriving DecidableEq, Repr

/-- Symbolic names for the audio files a request manipulates. -/
inductive FileTag
  | original
  | trimmed
  | bassBoosted
  | nightcored
  | instrumental
deriving DecidableEq, Repr

/-- Outcomes of the ffmpeg subprocess invocations of one request: exit code
and raised-exception flag for the trim call and for the single effect-mode
call the request makes. -/
structure FfmpegEnv where
  trimExit : Nat
  trimExc : Bool
  modeExit : Nat
  modeExc : Bool
deriving DecidableEq

/-- Embedding of `apply_audio_trim`: true exactly when the subprocess did
not raise and exited zero. -/
def apply_audio_trim (fe : FfmpegEnv) : Bool :=
  !fe.trimExc && fe.trimExit == 0

/-- Embedding of `apply_bass_boost` for the mode invocation of this
request. -/
def apply_bass_boost (fe : FfmpegEnv) : Bool :=
  !fe.modeExc && fe.modeExit == 0

/-- Embedding of `apply_nightcore` for the mode invocation of this
request. -/
def apply_nightcore (fe : FfmpegEnv) : Bool :=
  !fe.modeExc && fe.modeExit == 0

/-- Embedding of `apply_vocal_removal` for the mode invocation of this
request. -/
def apply_vocal_removal (fe : FfmpegEnv) : Bool :=
  !fe.modeExc && fe.modeExit == 0

/-- Embedding of `process_audio`: standard mode returns its input unchanged,
each effect mode returns its output file on success and `None` on
failure. -/
def process_audio (input : FileTag) (mode : AudioMode) (fe : FfmpegEnv) : Option FileTag :=
  match mode with
  | .standard => some input
  | .bass_boost => if apply_bass_boost fe then some .bassBoosted else none
  | .nightcore => if apply_nightcore fe then some .nightcored else none
  | .minus_one => if apply_vocal_removal fe then some .instrumental else none

/-- The trim step of `download_audio` (lines 1994-2000): when both bounds
were supplied, use the trimmed file on success and fall back to the full
audio on failure. -/
def trimStage (bothGiven : Bool) (fe : FfmpegEnv) : FileTag :=
  if bothGiven then (if apply_audio_trim fe then .trimmed else .original) else .original

/-- Steps 1 and 2 of the post-download pipeline of `download_audio`: trim,
then mode processing; `none` is the case the handler turns into a 500. -/
def processingStage (bothGiven : Bool) (mode : AudioMode) (fe : FfmpegEnv) : Option FileTag :=
  process_audio (trimStage bothGiven fe) mode fe

/-! ## Metadata tagging (main.py lines 819-876) -/

/-- Effect outcomes of one `embed_metadata` call.  `loadErr` is an exception
other than `ID3NoHeaderError` while opening the file (or while re-opening
and adding tags), `loadNoHeader` the `ID3NoHeaderError` path, `thumbFetchErr`
an exception while fetching the cover image, `saveErr` an exception in
`audio.save()`. -/
structure TagEnv where
  mutagenAvailable : Bool
  loadNoHeader : Bool
  loadErr : Bool
  artist : String
  thumbnailUrl : Option String
  thumbFetchErr : Bool
  saveErr : Bool
deriving DecidableEq

/-- The body of `embed_metadata` inside its outer `try`, with exceptions as
`Except.error`: load (the `ID3NoHeaderError` branch is caught by the inner
handler and retried with `add_tags`), write the title and artist frames,
best-effort cover fetch (its exception is caught and logged in place), then
save.  Returns the `True` of the success path.  The let binding records
whether a cover frame was written; it does not affect the result. -/
def embedBody (t : TagEnv) : Except String Bool :=
  if t.loadErr then Except.error "load"
  else
    let _coverEmbedded :=
      match t.thumbnailUrl with
      | some _ => !t.thumbFetchErr
      | none => false
    if t.saveErr then Except.error "save" else Except.ok true

/-- Embedding of `embed_metadata`: the mutagen-missing early return, then
the outer `try`/`except` around `embedBody`, whose handler logs and returns
`False`. -/
def embedMetadataExc (t : TagEnv) : Except String Bool :=
  if !t.mutagenAvailable then Except.ok false
  else
    match embedBody t with
    | Except.ok b => Except.ok b
    | Except.error _ => Except.ok false

/-! ## The `/download` handler (main.py lines 1769-2041) -/

/-- Model of the Python `float` values a trim bound can take: a finite
float (an exact rational) or the NaN value, which `float("nan")` produces
and every comparison treats as false.  (The infinities behave like further
non-finite values; NaN is the one needed below.) -/
inductive PyFloat
  | num (q : ℚ)
  | nan
deriving DecidableEq, Repr

/-- Python `x >= y` on floats: false whenever one side is NaN. -/
def pyGe : PyFloat → PyFloat → Bool
  | .num a, .num b => decide (b ≤ a)
  | _, _ => false

/-- Python `x > y` on floats: false whenever one side is NaN. -/
def pyGt : PyFloat → PyFloat → Bool
  | .num a, .num b => decide (b < a)
  | _, _ => false

/-- Whether Python `int(x)` succeeds: it raises `ValueError` on NaN. -/
def intConvertible : PyFloat → Bool
  | .num _ => true
  | .nan => false

/-- The request parameters of `/download` that drive control flow. -/
structure AudioReq where
  startTime : Option PyFloat
  endTime : Option PyFloat
  mode : AudioMode

/-- Effect outcomes of one `/download` request.  `infoResolved` says the
metadata `info` dict is not `None` after the fallbacks of lines 1815-1879;
`mp3Found` is the glob check of line 1985. -/
structure AudioEnv where
  ffmpegOk : Bool
  infoResolved : Bool
  videoDuration : Option ℚ
  cascade : CascadeEnv
  mp3Found : Bool
  ffmpeg : FfmpegEnv
  tag : TagEnv
deriving DecidableEq

/-- The response of one `/download` request: a streamed file, a raised
`HTTPException`, or an exception escaping the handler (surfaced by the
framework as an internal server error). -/
inductive AudioOutcome
  | served (tag : FileTag) (src : DlSource)
  | httpError (code : Nat)
  | uncaughtError
deriving DecidableEq, Repr

/-- Result of running the `/download` handler, with the lifecycle of the
per-request temporary directory and whether the download phase (everything
from `tempfile.mkdtemp()` on) was entered. -/
structure AudioRunResult where
  outcome : AudioOutcome
  tmpCreated : Bool
  tmpCleaned : Bool
  reachedDownload : Bool
deriving DecidableEq, Repr

/-- The end-time clamp of lines 1892-1893 (`video_duration` is tested for
truthiness, so a duration of 0 does not clamp, and a NaN bound compares
false so it is never clamped).  The source rebinds `end_time` here; the
model applies the same function at the one later point where the value
affects the outcome, the `int(end_time)` of the filename step. -/
def clampEnd (duration : Option ℚ) (e : PyFloat) : PyFloat :=
  match duration with
  | some d => if d ≠ 0 ∧ pyGt e (.num d) = true then .num d else e
  | none => e

/-- The part of `download_audio` from `tempfile.mkdtemp()` (line 1896) on:
the download cascade, the mp3 glob check, trim and mode processing, metadata
embedding, the output-filename computation, then streaming with a `finally`
cleanup.  Every early `raise` (lines 1981-1983, 1985-1988, 2005-2010) is
preceded by an explicit `shutil.rmtree`; the `Except.error` branch of the
tagging call is the hypothetical propagation of an exception out of
`embed_metadata`, which would skip cleanup.  The filename step (lines
2016-2024) runs `int(start_time)` and `int(end_time)` when both bounds were
supplied; a non-convertible (NaN) bound raises there, after `mkdtemp` and
with no `rmtree` on that path. -/
def audioAfterValidation (env : AudioEnv) (req : AudioReq) (bothGiven : Bool) : AudioRunResult :=
  match audioDownloadSource env.cascade with
  | none => ⟨.httpError 500, true, true, true⟩
  | some src =>
    if !env.mp3Found then ⟨.httpError 500, true, true, true⟩
    else
      match processingStage bothGiven req.mode env.ffmpeg with
      | none => ⟨.httpError 500, true, true, true⟩
      | some tag =>
        match embedMetadataExc env.tag with
        | Except.error _ => ⟨.httpError 500, true, false, true⟩
        | Except.ok _ =>
          match req.startTime, req.endTime with
          | some s, some e =>
            if intConvertible s && intConvertible (clampEnd env.videoDuration e) then
              ⟨.served tag src, true, true, true⟩
            else ⟨.uncaughtError, true, false, true⟩
          | _, _ => ⟨.served tag src, true, true, true⟩

/-- Embedding of the `/download` handler `download_audio`: the ffmpeg
availability check, the metadata resolution, the trim validation of lines
1889-1893 (the Python `start_time >= end_time` comparison, false for NaN),
then the download phase. -/
def downloadAudioRun (env : AudioEnv) (req : AudioReq) : AudioRunResult :=
  if !env.ffmpegOk then ⟨.httpError 500, false, false, false⟩
  else if !env.infoResolved then ⟨.httpError 400, false, false, false⟩
  else
    match req.startTime, req.endTime with
    | some s, some e =>
      if pyGe s e then ⟨.httpError 400, false, false, false⟩
      else audioAfterValidation env req true
    | _, _ => audioAfterValidation env req false

/-- The condition under which the trim validation of lines 1889-1891 does
not reject the request: either a bound is missing, or the
`start_time >= end_time` comparison is false. -/
def validTrimPass (req : AudioReq) : Prop :=
  match req.startTime, req.endTime with
  | some s, some e => pyGe s e = false
  | _, _ => True

/-- Requests whose supplied trim bounds are int-convertible (no NaN). -/
def finiteBounds (req : AudioReq) : Prop :=
  (∀ s, req.startTime = some s → intConvertible s = true) ∧
  (∀ e, req.endTime = some e → intConvertible e = true)

/-! ## The `/download-video` handler (main.py lines 2053-2190) -/

/-- Effect outcomes of one `/download-video` request: ffmpeg availability,
metadata resolution (lines 2098-2128), the yt-dlp video download of lines
2148-2158, and the video-file glob of line 2161. -/
structure VideoEnv where
  ffmpegOk : Bool
  infoResolved : Bool
  ytdlpOk : Bool
  fileFound : Bool
deriving DecidableEq

/-- The response of one `/download-video` request. -/
inductive VideoOutcome
  | served
  | httpError (code : Nat)
deriving DecidableEq, Repr

/-- Result of running the `/download-video` handler. -/
structure VideoRunResult where
  outcome : VideoOutcome
  tmpCreated : Bool
  tmpCleaned : Bool
deriving DecidableEq, Repr

/-- Embedding of the `/download-video` handler `download_video`: every
`raise` after `tempfile.mkdtemp()` (line 2134) is preceded by an explicit
`shutil.rmtree`, and the streaming path cleans up in `finally`. -/
def downloadVideoRun (env : VideoEnv) : VideoRunResult :=
  if !env.ffmpegOk then ⟨.httpError 500, false, false⟩
  else if !env.infoResolved then ⟨.httpError 400, false, false⟩
  else if !env.ytdlpOk then ⟨.httpError 500, true, true⟩
  else if !env.fileFound then ⟨.httpError 500, true, true⟩
  else ⟨.served, true, true⟩


/-! ## Helper lemmas about the string models -/

lemma dropWhile_cons_false {α : Type*} {p : α → Bool} {a : α} {l : List α} (h : p a = false) :
    (a :: l).dropWhile p = a :: l := by
  simp [List.dropWhile_cons, h]

lemma dropWhile_head_false {α : Type*} {p : α → Bool} {a : α} {t : List α} :
    ∀ l : List α, l.dropWhile p = a :: t → p a = false := by
  intro l
  induction l with
  | nil => intro h; simp [List.dropWhile] at h
  | cons b l ih =>
    intro h
    rw [List.dropWhile_cons] at h
    by_cases hb : p b = true
    · rw [if_pos hb] at h; exact ih h
    · rw [if_neg hb] at h
      injection h with h1 _
      subst h1
      cases hpb : p b
      · rfl
      · exact absurd hpb hb

lemma dropWhile_append_last {α : Type*} {p : α → Bool} (a : α) (h : p a = false) :
    ∀ u : List α, ∃ w, (u ++ [a]).dropWhile p = w ++ [a] := by
  intro u
  induction u with
  | nil => exact ⟨[], by simp [List.dropWhile_cons, h]⟩
  | cons c u ih =>
    by_cases hc : p c = true
    · obtain ⟨w, hw⟩ := ih
      exact ⟨w, by simp [List.dropWhile_cons, hc, hw]⟩
    · exact ⟨c :: u, by simp [List.dropWhile_cons, hc]⟩

lemma stripL_idem (l : List Char) : stripL (stripL l) = stripL l := by
  unfold stripL
  cases hy : l.dropWhile isPySpace with
  | nil => simp
  | cons a t =>
    have ha : isPySpace a = false := dropWhile_head_false l hy
    obtain ⟨w, hw⟩ := dropWhile_append_last a ha t.reverse
    have hrev : (a :: t).reverse = t.reverse ++ [a] := by simp
    rw [hrev, hw]
    have h1 : (w ++ [a]).reverse.dropWhile isPySpace = (w ++ [a]).reverse := by
      rw [List.reverse_append]
      exact dropWhile_cons_false ha
    rw [h1, List.reverse_reverse]
    have h2 : (w ++ [a]).dropWhile isPySpace = w ++ [a] := by
      have h3 := List.dropWhile_idempotent isPySpace (t.reverse ++ [a])
      rw [hw] at h3
      exact h3
    rw [h2]

lemma pythonStrip_idem (s : String) : pythonStrip (pythonStrip s) = pythonStrip s := by
  show String.mk (stripL (stripL s.data)) = String.mk (stripL s.data)
  rw [stripL_idem]

lemma mem_of_mem_dropWhile {α : Type*} {p : α → Bool} :
    ∀ {l : List α} {c}, c ∈ l.dropWhile p → c ∈ l := by
  intro l
  induction l with
  | nil => intro c h; simp [List.dropWhile] at h
  | cons a l ih =>
    intro c h
    rw [List.dropWhile_cons] at h
    by_cases ha : p a = true
    · rw [if_pos ha] at h; exact List.mem_cons_of_mem a (ih h)
    · rw [if_neg ha] at h; exact h

lemma mem_of_mem_stripL {l : List Char} {c : Char} (h : c ∈ stripL l) : c ∈ l := by
  unfold stripL at h
  rw [List.mem_reverse] at h
  have h2 := mem_of_mem_dropWhile h
  rw [List.mem_reverse] at h2
  exact mem_of_mem_dropWhile h2

lemma dropWhile_eq_self_of_all {α : Type*} {p : α → Bool} :
    ∀ l : List α, (∀ c ∈ l, p c = false) → l.dropWhile p = l := by
  intro l h
  cases l with
  | nil => rfl
  | cons a t => exact dropWhile_cons_false (h a (List.mem_cons_self a t))

lemma stripL_eq_self_of_all (l : List Char) (h : ∀ c ∈ l, isPySpace c = false) :
    stripL l = l := by
  unfold stripL
  rw [dropWhile_eq_self_of_all l h,
    dropWhile_eq_self_of_all l.reverse (fun c hc => h c (List.mem_reverse.mp hc)),
    List.reverse_reverse]

/-! ## Claim C5: input classification -/

/-- Claim C5: input classification is a deterministic total function: an
input whose stripped, lowercased form starts with `http://` or `https://`
is passed to the extractor unchanged after stripping, and every other input
is prefixed with the extraction library's search syntax `ytsearch1:`. -/
theorem c5_input_classification (s : String) :
    (is_url s = true → prepare_url s = pythonStrip s) ∧
    (is_url s = false → prepare_url s = "ytsearch1:" ++ pythonStrip s) := by
  have hiu : is_url (pythonStrip s) = is_url s := by
    unfold is_url
    rw [pythonStrip_idem]
  constructor
  · intro h
    show (if is_url (pythonStrip s) = true then pythonStrip s
      else "ytsearch1:" ++ pythonStrip s) = pythonStrip s
    rw [hiu, h, if_pos rfl]
  · intro h
    show (if is_url (pythonStrip s) = true then pythonStrip s
      else "ytsearch1:" ++ pythonStrip s) = "ytsearch1:" ++ pythonStrip s
    rw [hiu, h]
    simp

/-- Witness for C5 at one URL input and one search input. -/
theorem c5_witness :
    prepare_url "  HTTPS://Example.com/Watch " = pythonStrip "  HTTPS://Example.com/Watch " ∧
    prepare_url " hello song " = "ytsearch1:" ++ pythonStrip " hello song " :=
  ⟨(c5_input_classification "  HTTPS://Example.com/Watch ").1 (by decide),
   (c5_input_classification " hello song ").2 (by decide)⟩

/-! ## Claim C6: filename sanitization -/

/-- Claim C6: for every input, `sanitize_filename` returns a string
containing none of the disallowed characters and of length at most 100. -/
theorem c6_sanitize_filename (s : String) :
    (sanitize_filename s).data.all (fun c => !isForbiddenChar c) = true ∧
    (sanitize_filename s).length ≤ 100 := by
  constructor
  · rw [List.all_eq_true]
    intro c hc
    have h1 : c ∈ stripL (s.data.filter (fun c => !isForbiddenChar c)) :=
      List.take_subset 100 _ hc
    have h2 : c ∈ s.data.filter (fun c => !isForbiddenChar c) := mem_of_mem_stripL h1
    exact (List.mem_filter.mp h2).2
  · show ((stripL (s.data.filter (fun c => !isForbiddenChar c))).take 100).length ≤ 100
    rw [List.length_take]
    exact min_le_left _ _

/-! ## Claim C7: duration formatting -/

lemma pad2_length : ∀ x, x < 100 → (pad2 x).length = 2 := by decide

/-- Claim C7: for every non-negative number of seconds, `format_duration`
produces `H:MM:SS` when at least one hour and `M:SS` under one hour, with
the minute field of the hour form and the second field zero-padded to two
digits, and the components reassemble to the input; an absent duration
yields the sentinel `"Unknown"`. -/
theorem c7_format_duration (n : Nat) :
    (3600 ≤ n → ∃ h m s, 1 ≤ h ∧ m < 60 ∧ s < 60 ∧
      (pad2 m).length = 2 ∧ (pad2 s).length = 2 ∧
      format_duration (some n) = Nat.repr h ++ ":" ++ pad2 m ++ ":" ++ pad2 s ∧
      h * 3600 + m * 60 + s = n) ∧
    (n < 3600 → ∃ m s, m < 60 ∧ s < 60 ∧ (pad2 s).length = 2 ∧
      format_duration (some n) = Nat.repr m ++ ":" ++ pad2 s ∧
      m * 60 + s = n) ∧
    format_duration none = "Unknown" := by
  refine ⟨?_, ?_, rfl⟩
  · intro h
    refine ⟨n / 3600, n / 60 % 60, n % 60, ?_, ?_, ?_, ?_, ?_, ?_, ?_⟩
    · omega
    · omega
    · omega
    · exact pad2_length _ (by omega)
    · exact pad2_length _ (by omega)
    · show (if n / 60 / 60 ≠ 0 then
          Nat.repr (n / 60 / 60) ++ ":" ++ pad2 (n / 60 % 60) ++ ":" ++ pad2 (n % 60)
        else Nat.repr (n / 60) ++ ":" ++ pad2 (n % 60)) =
          Nat.repr (n / 3600) ++ ":" ++ pad2 (n / 60 % 60) ++ ":" ++ pad2 (n % 60)
      rw [Nat.div_div_eq_div_mul, show (60 * 60 : Nat) = 3600 from rfl,
        if_pos (show n / 3600 ≠ 0 by omega)]
    · omega
  · intro h
    refine ⟨n / 60, n % 60, ?_, ?_, ?_, ?_, ?_⟩
    · omega
    · omega
    · exact pad2_length _ (by omega)
    · show (if n / 60 / 60 ≠ 0 then
          Nat.repr (n / 60 / 60) ++ ":" ++ pad2 (n / 60 % 60) ++ ":" ++ pad2 (n % 60)
        else Nat.repr (n / 60) ++ ":" ++ pad2 (n % 60)) =
          Nat.repr (n / 60) ++ ":" ++ pad2 (n % 60)
      rw [Nat.div_div_eq_div_mul, show (60 * 60 : Nat) = 3600 from rfl]
      rw [if_neg (show ¬n / 3600 ≠ 0 by omega)]
    · omega

/-- Witness for C7 at 3725 seconds (hour form) and 125 seconds (minute
form). -/
theorem c7_witness :
    (∃ h m s, 1 ≤ h ∧ m < 60 ∧ s < 60 ∧
      (pad2 m).length = 2 ∧ (pad2 s).length = 2 ∧
      format_duration (some 3725) = Nat.repr h ++ ":" ++ pad2 m ++ ":" ++ pad2 s ∧
      h * 3600 + m * 60 + s = 3725) ∧
    (∃ m s, m < 60 ∧ s < 60 ∧ (pad2 s).length = 2 ∧
      format_duration (some 125) = Nat.repr m ++ ":" ++ pad2 s ∧
      m * 60 + s = 125) :=
  ⟨(c7_format_duration 3725).1 (by norm_num), (c7_format_duration 125).2.1 (by norm_num)⟩

/-! ## Claim C9: video-id extraction -/

lemma tryAltsAt_fullId :
    ∀ (alts : List (List Char)) (l idc : List Char),
      tryAltsAt alts l = some idc → fullId idc = true := by
  intro alts
  induction alts with
  | nil => intro l idc h; simp [tryAltsAt] at h
  | cons pre rest ih =>
    intro l idc h
    rw [tryAltsAt, List.findSome?_cons] at h
    split at h
    · next b heq =>
      split at heq
      · next hcond =>
        injection heq with heq'
        subst heq'
        injection h with h'
        subst h'
        simp only [Bool.and_eq_true] at hcond
        exact hcond.2
      · exact absurd heq (by simp)
    · exact ih l idc (by rw [tryAltsAt]; exact h)

lemma searchAlts_fullId (alts : List (List Char)) :
    ∀ (l idc : List Char), searchAlts alts l = some idc → fullId idc = true := by
  intro l
  induction l with
  | nil => intro idc h; simp [searchAlts] at h
  | cons c rest ih =>
    intro idc h
    rw [searchAlts] at h
    split at h
    · next x heq =>
      injection h with h'
      subst h'
      exact tryAltsAt_fullId alts (c :: rest) _ heq
    · exact ih idc h

lemma idChar_not_space (c : Char) (h : isIdChar c = true) : isPySpace c = false := by
  by_contra hns
  rw [Bool.not_eq_false] at hns
  have hs : c = ' ' ∨ c = '\t' ∨ c = '\n' ∨ c = '\x0d' ∨
      c = Char.ofNat 11 ∨ c = Char.ofNat 12 := by
    simpa [isPySpace, or_assoc] using hns
  rcases hs with hc | hc | hc | hc | hc | hc <;> subst hc <;> exact absurd h (by decide)

lemma fullId_stripL_self {l : List Char} (h : fullId l = true) : stripL l = l := by
  have h2 := h
  simp only [fullId, Bool.and_eq_true] at h2
  have hall : ∀ c ∈ l, isIdChar c = true :=
    fun c hc => List.all_eq_true.mp h2.2 c hc
  exact stripL_eq_self_of_all l (fun c hc => idChar_not_space c (hall c hc))

/-- Claim C9: `extract_video_id` is shape-preserving and idempotent: every
returned id is an 11-character string over `[a-zA-Z0-9_-]`, and extracting
from a returned id returns that id itself. -/
theorem c9_extract_video_id (s v : String) (h : extract_video_id s = some v) :
    v.length = 11 ∧ v.data.all isIdChar = true ∧ extract_video_id v = some v := by
  have hf : fullId v.data = true := by
    rw [extract_video_id] at h
    split at h
    · next hc =>
      injection h with h'
      subst h'
      exact hc
    · split at h
      · next heq =>
        injection h with h'
        subst h'
        exact searchAlts_fullId _ _ _ heq
      · split at h
        · next heq =>
          injection h with h'
          subst h'
          exact searchAlts_fullId _ _ _ heq
        · exact absurd h (by simp)
  have hf2 := hf
  simp only [fullId, Bool.and_eq_true, beq_iff_eq] at hf2
  obtain ⟨hlen, hall⟩ := hf2
  refine ⟨hlen, hall, ?_⟩
  · rw [extract_video_id]
    have hstrip : stripL v.data = v.data := fullId_stripL_self hf
    rw [hstrip, if_pos hf]

/-- Witness for C9 at a concrete short-URL input. -/
theorem c9_witness :
    ("dQw4w9WgXcQ" : String).length = 11 ∧
    ("dQw4w9WgXcQ" : String).data.all isIdChar = true ∧
    extract_video_id "dQw4w9WgXcQ" = some "dQw4w9WgXcQ" :=
  c9_extract_video_id "https://youtu.be/dQw4w9WgXcQ" "dQw4w9WgXcQ" (by decide)


/-! ## Helper lemmas about the handler models -/

lemma embedMetadataExc_isOk (t : TagEnv) : ∃ b, embedMetadataExc t = Except.ok b := by
  unfold embedMetadataExc
  split
  · exact ⟨false, rfl⟩
  · cases hb : embedBody t with
    | ok b => exact ⟨b, rfl⟩
    | error msg => exact ⟨false, rfl⟩

/-! ## Claim C1: the download fallback cascade -/

/-- Counterexample to claim C1 as stated: in the audio download cascade the
code reaches for the download-proxy service (Cobalt) even though a relay
service (Invidious) would succeed, whereas the cascade order claimed by the
spec would use the relay first. -/
theorem c1_counterexample :
    audioDownloadSource ⟨true, true, false, false, true, true, false, true, false⟩ =
      some DlSource.cobalt ∧
    (⟨true, true, false, false, true, true, false, true, false⟩ : CascadeEnv).invOk = true ∧
    (⟨true, true, false, false, true, true, false, true, false⟩ : CascadeEnv).fetchOk = true ∧
    claimedCascadeOrder ⟨true, true, false, false, true, true, false, true, false⟩ =
      some DlSource.invidious := by
  decide

/-- Claim C1 (amended): the audio download cascade tries, in a fixed order,
the primary yt-dlp download, the alternative-configuration retry, then the
first of Cobalt, Invidious, Piped that yields a direct URL (one
fetch-and-convert attempt on it); it stops at the first success, and the
official platform data API is never a download source. -/
theorem c1_cascade_first_match (e : CascadeEnv) :
    audioDownloadSource e = cascadeFirstMatch e ∧
    audioDownloadSource e ≠ some DlSource.officialApi := by
  obtain ⟨a1, a2, a3, a4, a5, a6, a7, a8, a9⟩ := e
  revert a1 a2 a3 a4 a5 a6 a7 a8 a9
  decide

lemma intConvertible_clampEnd (d : Option ℚ) (e : PyFloat) (h : intConvertible e = true) :
    intConvertible (clampEnd d e) = true := by
  cases d with
  | none => simpa [clampEnd] using h
  | some dv =>
    by_cases hc : dv ≠ 0 ∧ pyGt e (PyFloat.num dv) = true
    · simp [clampEnd, hc, intConvertible]
    · simpa [clampEnd, hc] using h

/-! ## Claim C2: transcoder failure reporting -/

/-- Counterexample to claim C2 as stated: a request whose trim invocation of
the transcoder exits nonzero is still served the full (untrimmed) audio
file, not an HTTP error. -/
theorem c2_counterexample :
    (downloadAudioRun
        ⟨true, true, none, ⟨false, true, true, false, false, false, false, false, false⟩,
          true, ⟨1, false, 0, false⟩, ⟨true, false, false, "a", none, false, false⟩⟩
        ⟨some (PyFloat.num 1), some (PyFloat.num 2), AudioMode.standard⟩).outcome =
      AudioOutcome.served FileTag.original DlSource.ytdlp ∧
    (1 : Nat) ≠ 0 := by
  constructor
  · decide
  · decide

/-- Claim C2 (amended): for every request that passes the trim validation
and reaches processing, a nonzero exit of the transcoder in the selected
effect mode (`bass_boost`, `nightcore`, `minus_one`) is reported to the
caller as an HTTP 500 processing failure; for the trim step, a nonzero exit
is logged and the request continues with the untrimmed audio — the outcome
equals that of the same request without trim bounds — so trim failure is
recovered, not reported. -/
theorem c2_transcoder_failure (env : AudioEnv) (req : AudioReq) (a b : ℚ) (mode : AudioMode) :
    (audioDownloadSource env.cascade ≠ none → env.ffmpegOk = true →
      env.infoResolved = true → env.mp3Found = true →
      validTrimPass req → req.mode ≠ AudioMode.standard → env.ffmpeg.modeExit ≠ 0 →
      (downloadAudioRun env req).outcome = AudioOutcome.httpError 500) ∧
    (a < b → env.ffmpeg.trimExit ≠ 0 →
      (downloadAudioRun env ⟨some (PyFloat.num a), some (PyFloat.num b), mode⟩).outcome =
        (downloadAudioRun env ⟨none, none, mode⟩).outcome) := by
  constructor
  · intro hsrc hff hinfo hmp3 hvalid hmode hexit
    obtain ⟨os, oe, m⟩ := req
    obtain ⟨src, hsome⟩ := Option.ne_none_iff_exists'.mp hsrc
    have hproc : ∀ bg, processingStage bg m env.ffmpeg = none := by
      intro bg
      cases m with
      | standard => exact absurd rfl hmode
      | bass_boost => simp [processingStage, process_audio, apply_bass_boost, hexit]
      | nightcore => simp [processingStage, process_audio, apply_nightcore, hexit]
      | minus_one => simp [processingStage, process_audio, apply_vocal_removal, hexit]
    have hafter : ∀ bg, (audioAfterValidation env ⟨os, oe, m⟩ bg).outcome =
        AudioOutcome.httpError 500 := by
      intro bg
      simp [audioAfterValidation, hsome, hmp3, hproc bg]
    cases os with
    | none =>
      cases oe with
      | none => simpa [downloadAudioRun, hff, hinfo] using hafter false
      | some e2 => simpa [downloadAudioRun, hff, hinfo] using hafter false
    | some s2 =>
      cases oe with
      | none => simpa [downloadAudioRun, hff, hinfo] using hafter false
      | some e2 =>
        have hge : pyGe s2 e2 = false := by simpa [validTrimPass] using hvalid
        simpa [downloadAudioRun, hff, hinfo, hge] using hafter true
  · intro hab hexit
    have hts : trimStage true env.ffmpeg = trimStage false env.ffmpeg := by
      simp [trimStage, apply_audio_trim, hexit]
    have hge : pyGe (PyFloat.num a) (PyFloat.num b) = false := by
      simp only [pyGe, decide_eq_false_iff_not]
      exact not_le.mpr hab
    cases hf : env.ffmpegOk with
    | false => simp [downloadAudioRun, hf]
    | true =>
      cases hi : env.infoResolved with
      | false => simp [downloadAudioRun, hf, hi]
      | true =>
        have hpp : processingStage true mode env.ffmpeg =
            processingStage false mode env.ffmpeg := by
          unfold processingStage
          rw [hts]
        have hic : intConvertible (clampEnd env.videoDuration (PyFloat.num b)) = true :=
          intConvertible_clampEnd env.videoDuration (PyFloat.num b) rfl
        obtain ⟨bb, hbb⟩ := embedMetadataExc_isOk env.tag
        simp only [downloadAudioRun, hf, hi, Bool.not_true, Bool.false_eq_true,
          if_false, hge]
        cases hsrc2 : audioDownloadSource env.cascade with
        | none => simp [audioAfterValidation, hsrc2]
        | some src =>
          cases hmp : env.mp3Found with
          | false => simp [audioAfterValidation, hsrc2, hmp]
          | true =>
            cases hps : processingStage false mode env.ffmpeg with
            | none => simp [audioAfterValidation, hsrc2, hmp, hpp, hps]
            | some ftag =>
              have hia : intConvertible (PyFloat.num a) = true := rfl
              simp [audioAfterValidation, hsrc2, hmp, hpp, hps, hbb, hia, hic]

/-- Witness for C2 (amended): a request with valid trim bounds whose trim
succeeds but whose effect-mode transcoder exits nonzero gets an HTTP 500,
and a request whose trim transcoder exits nonzero has the same outcome as
the untrimmed request. -/
theorem c2_witness :
    (downloadAudioRun
        ⟨true, true, none, ⟨false, true, true, false, false, false, false, false, false⟩,
          true, ⟨0, false, 1, false⟩, ⟨true, false, false, "a", none, false, false⟩⟩
        ⟨some (PyFloat.num 1), some (PyFloat.num 2), AudioMode.bass_boost⟩).outcome =
      AudioOutcome.httpError 500 ∧
    (downloadAudioRun
        ⟨true, true, none, ⟨false, true, true, false, false, false, false, false, false⟩,
          true, ⟨1, false, 0, false⟩, ⟨true, false, false, "a", none, false, false⟩⟩
        ⟨some (PyFloat.num 1), some (PyFloat.num 2), AudioMode.bass_boost⟩).outcome =
      (downloadAudioRun
        ⟨true, true, none, ⟨false, true, true, false, false, false, false, false, false⟩,
          true, ⟨1, false, 0, false⟩, ⟨true, false, false, "a", none, false, false⟩⟩
        ⟨none, none, AudioMode.bass_boost⟩).outcome :=
  ⟨(c2_transcoder_failure
      ⟨true, true, none, ⟨false, true, true, false, false, false, false, false, false⟩,
        true, ⟨0, false, 1, false⟩, ⟨true, false, false, "a", none, false, false⟩⟩
      ⟨some (PyFloat.num 1), some (PyFloat.num 2), AudioMode.bass_boost⟩
      1 2 AudioMode.bass_boost).1 (by decide) rfl rfl rfl
      (show pyGe (PyFloat.num 1) (PyFloat.num 2) = false by decide)
      (by decide) (by decide),
   (c2_transcoder_failure
      ⟨true, true, none, ⟨false, true, true, false, false, false, false, false, false⟩,
        true, ⟨1, false, 0, false⟩, ⟨true, false, false, "a", none, false, false⟩⟩
      ⟨none, none, AudioMode.bass_boost⟩
      1 2 AudioMode.bass_boost).2 (by norm_num) (by decide)⟩

/-! ## Claim C3: temp-directory cleanup -/

lemma downloadAudioRun_cleanup_finite (env : AudioEnv) (req : AudioReq)
    (h : finiteBounds req) :
    (downloadAudioRun env req).tmpCleaned = (downloadAudioRun env req).tmpCreated := by
  obtain ⟨os, oe, m⟩ := req
  obtain ⟨b, hb⟩ := embedMetadataExc_isOk env.tag
  cases os with
  | none =>
    unfold downloadAudioRun audioAfterValidation
    simp only [hb]
    repeat first
      | rfl
      | split
  | some s =>
    cases oe with
    | none =>
      unfold downloadAudioRun audioAfterValidation
      simp only [hb]
      repeat first
        | rfl
        | split
    | some e =>
      have hcs : intConvertible s = true := h.1 s rfl
      have hce : intConvertible (clampEnd env.videoDuration e) = true :=
        intConvertible_clampEnd env.videoDuration e (h.2 e rfl)
      unfold downloadAudioRun audioAfterValidation
      simp only [hb, hcs, hce, Bool.and_true]
      repeat first
        | rfl
        | split

lemma downloadVideoRun_cleanup (venv : VideoEnv) :
    (downloadVideoRun venv).tmpCleaned = (downloadVideoRun venv).tmpCreated := by
  obtain ⟨v1, v2, v3, v4⟩ := venv
  revert v1 v2 v3 v4
  decide

/-- Claim C3 is violated by the code: NaN trim bounds pass the
`start_time >= end_time` validation (NaN comparisons are false), the
download and processing proceed, and the request then raises uncaught in
the `int(start_time)` of the output-filename computation (main.py line
2023) — after `tempfile.mkdtemp()` and with no `shutil.rmtree` on that
path, so the temporary directory is created but never cleaned. -/
theorem c3_nan_leak :
    pyGe PyFloat.nan PyFloat.nan = false ∧
    downloadAudioRun
        ⟨true, true, none, ⟨false, true, true, false, false, false, false, false, false⟩,
          true, ⟨1, false, 0, false⟩, ⟨true, false, false, "a", none, false, false⟩⟩
        ⟨some PyFloat.nan, some PyFloat.nan, AudioMode.standard⟩ =
      ⟨AudioOutcome.uncaughtError, true, false, true⟩ := by
  constructor
  · rfl
  · decide
/-! ## Claim C4: trim validation -/

/-- Claim C4: when both trim bounds are supplied with `start_time >=
end_time`, the request is rejected before the temporary directory is created
and before the download phase begins, and — whenever it passes the earlier
ffmpeg and metadata checks — the rejection is exactly the HTTP 400 of the
trim validation. -/
theorem c4_trim_validation (env : AudioEnv) (s e : PyFloat) (mode : AudioMode)
    (h : pyGe s e = true) :
    (downloadAudioRun env ⟨some s, some e, mode⟩).tmpCreated = false ∧
    (downloadAudioRun env ⟨some s, some e, mode⟩).reachedDownload = false ∧
    (env.ffmpegOk = true → env.infoResolved = true →
      (downloadAudioRun env ⟨some s, some e, mode⟩).outcome = AudioOutcome.httpError 400) := by
  cases hf : env.ffmpegOk with
  | false => refine ⟨by simp [downloadAudioRun, hf], by simp [downloadAudioRun, hf], ?_⟩
             intro hff _
             simp [hf] at hff
  | true =>
    cases hi : env.infoResolved with
    | false => refine ⟨by simp [downloadAudioRun, hf, hi], by simp [downloadAudioRun, hf, hi], ?_⟩
               intro _ hii
               simp [hi] at hii
    | true =>
      refine ⟨?_, ?_, fun _ _ => ?_⟩ <;>
        simp [downloadAudioRun, hf, hi, h]

/-- Witness for C4 at `start_time = 5`, `end_time = 3`. -/
theorem c4_witness :
    (downloadAudioRun
        ⟨true, true, none, ⟨false, true, true, false, false, false, false, false, false⟩,
          true, ⟨0, false, 0, false⟩, ⟨true, false, false, "a", none, false, false⟩⟩
        ⟨some (PyFloat.num 5), some (PyFloat.num 3), AudioMode.standard⟩).tmpCreated = false ∧
    (downloadAudioRun
        ⟨true, true, none, ⟨false, true, true, false, false, false, false, false, false⟩,
          true, ⟨0, false, 0, false⟩, ⟨true, false, false, "a", none, false, false⟩⟩
        ⟨some (PyFloat.num 5), some (PyFloat.num 3), AudioMode.standard⟩).outcome =
      AudioOutcome.httpError 400 := by
  have h := c4_trim_validation
    ⟨true, true, none, ⟨false, true, true, false, false, false, false, false, false⟩,
      true, ⟨0, false, 0, false⟩, ⟨true, false, false, "a", none, false, false⟩⟩
    (PyFloat.num 5) (PyFloat.num 3) AudioMode.standard (by decide)
  exact ⟨h.1, h.2.2 rfl rfl⟩

/-! ## Claim C8: tagging failure is non-fatal -/

/-- Claim C8: `embed_metadata` never lets an exception escape (its outer
handler turns every internal failure into a `False` return — and internal
failures do exist, e.g. a failing tag load), and the `/download` response is
the same whatever the tagging outcome: the audio file is still served. -/
theorem c8_tagging_nonfatal :
    (∀ t : TagEnv, ∃ b, embedMetadataExc t = Except.ok b) ∧
    embedBody ⟨true, false, true, "", none, false, false⟩ = Except.error "load" ∧
    (∀ (f1 f2 : Bool) (f3 : Option ℚ) (f4 : CascadeEnv) (f5 : Bool) (f6 : FfmpegEnv)
      (t1 t2 : TagEnv) (req : AudioReq),
      (downloadAudioRun ⟨f1, f2, f3, f4, f5, f6, t1⟩ req).outcome =
        (downloadAudioRun ⟨f1, f2, f3, f4, f5, f6, t2⟩ req).outcome) := by
  refine ⟨embedMetadataExc_isOk, rfl, ?_⟩
  intro f1 f2 f3 f4 f5 f6 t1 t2 req
  obtain ⟨b1, h1⟩ := embedMetadataExc_isOk t1
  obtain ⟨b2, h2⟩ := embedMetadataExc_isOk t2
  unfold downloadAudioRun audioAfterValidation
  simp only [h1, h2]


/-! ## Claim C10: lyrics search parser invariants -/

lemma fallbackStage_ne_nil (q : String) (acc : List SongResult) :
    fallbackStage q acc ≠ [] := by
  unfold fallbackStage
  split
  · simp
  · next h =>
    cases acc with
    | nil => exact absurd rfl h
    | cons a t => simp

lemma dedupeBy_key_nodup :
    ∀ (l : List SongResult) (seen : List (String × String)),
      ((dedupeBy seen l).map resultKey).Nodup ∧
      ∀ k ∈ (dedupeBy seen l).map resultKey, k ∉ seen := by
  intro l
  induction l with
  | nil => intro seen; simp [dedupeBy]
  | cons r rest ih =>
    intro seen
    rw [dedupeBy]
    split
    · exact ih seen
    · next hnot =>
      constructor
      · rw [List.map_cons, List.nodup_cons]
        exact ⟨fun hmem => ((ih (resultKey r :: seen)).2 _ hmem) (List.mem_cons_self _ _),
          (ih (resultKey r :: seen)).1⟩
      · intro k hk
        rw [List.map_cons, List.mem_cons] at hk
        rcases hk with rfl | hk
        · exact hnot
        · intro hks
          exact ((ih (resultKey r :: seen)).2 k hk) (List.mem_cons_of_mem _ hks)

lemma dedupeBy_nil_ne_nil {l : List SongResult} (h : l ≠ []) : dedupeBy [] l ≠ [] := by
  cases l with
  | nil => exact absurd rfl h
  | cons r rest =>
    rw [dedupeBy, if_neg (List.not_mem_nil _)]
    simp

lemma take10_ne_nil {l : List SongResult} (h : l ≠ []) : l.take 10 ≠ [] := by
  intro hc
  have hlen := congrArg List.length hc
  rw [List.length_take] at hlen
  rcases Nat.min_eq_zero_iff.mp hlen with h10 | h0
  · exact absurd h10 (by norm_num)
  · exact h (List.eq_nil_of_length_eq_zero h0)

/-- Claim C10: for every query and every list contributed by the live-API
search step, `parse_song_query` returns a non-empty list of at most 10
results, no two of which share the same lowercased (title, artist) pair;
and when nothing matches locally and the API contributes nothing, the
result is exactly the fallback entry built from the query. -/
theorem c10_parse_song_query (q : String) (api : List SongResult) :
    parse_song_query q api ≠ [] ∧
    (parse_song_query q api).length ≤ 10 ∧
    ((parse_song_query q api).map resultKey).Nodup ∧
    (localResults q = [] → api = [] →
      parse_song_query q api = [⟨1, pythonTitle q, "Unknown Artist", "low"⟩]) := by
  refine ⟨?_, ?_, ?_, ?_⟩
  · unfold parse_song_query
    exact take10_ne_nil (dedupeBy_nil_ne_nil (fallbackStage_ne_nil q _))
  · unfold parse_song_query
    rw [List.length_take]
    exact min_le_left _ _
  · unfold parse_song_query
    rw [List.map_take]
    exact List.Nodup.sublist (List.take_sublist 10 _) (dedupeBy_key_nodup _ []).1
  · intro hloc hapi
    unfold parse_song_query
    rw [hloc, hapi]
    rfl

set_option maxRecDepth 400000 in
/-- Witness for C10: a query matching nothing in the song database, with an
empty API contribution, yields exactly the fallback entry. -/
theorem c10_witness :
    parse_song_query "zq" [] = [⟨1, pythonTitle "zq", "Unknown Artist", "low"⟩] :=
  (c10_parse_song_query "zq" []).2.2.2 (by decide) rfl


end VibeStream
